import Mathlib

/-!
Verification of the alitiq demand-forecast SDK client
(`src/alitiq/demand_forecast.py`, class `alitiqDemandAPI`).

Modelling conventions:
* A Python `datetime` is modelled as `Int`, the number of seconds since the
  epoch; `timedelta(days = d)` is `d * 86400` seconds, and
  `strftime("%Y-%m-%dT%H:%M:%S")` (second precision) is modelled by the
  injective decimal rendering `strftime`.
* `datetime.now()` is modelled by an explicit `now : Int` argument.
* A client operation is modelled as the computation of the HTTP request it
  hands to the request layer `self._request`: it returns `Except PyError
  Request`.  An `Except.error` result models a Python exception raised
  before `_request` is reached, i.e. before any network request is issued.
* Python exception values are modelled by the inductive `PyError`.
-/

/-- Python exception classes that appear in the client or in its contract. -/
inductive PyError where
  | validationError (msgs : List String)
  | valueError (msg : String)
  | keyError
  | attributeError (msg : String)
  | configurationError
  | parseError
deriving DecidableEq, Repr

/-- A query-parameter value as built by the client: a string, an int, or
Python `None` (the `dt_calc` entry of `get_forecast` may be `None`). -/
inductive ParamValue where
  | str (s : String)
  | int (n : Int)
  | noneV
deriving DecidableEq, Repr

/-- The HTTP request handed to the request layer `self._request`. -/
structure Request where
  method : String
  path : String
  params : List (String × ParamValue)
  body : Option String
deriving DecidableEq, Repr

/-- `timedelta(days = d)` in seconds. -/
def timedelta_days (d : Int) : Int := d * 86400

/-- Model of `t.strftime("%Y-%m-%dT%H:%M:%S")`: an injective, second-precision
rendering of the datetime `t` (seconds since epoch). -/
def strftime (t : Int) : String := toString t

/-- Model of `d.strftime(...)` when `d` may be Python `None`: calling a method
on `None` raises `AttributeError` before any request is issued. -/
def optStrftime : Option Int → Except PyError String
  | some t => Except.ok (strftime t)
  | none => Except.error (PyError.attributeError "NoneType object has no attribute strftime")

/-- The date-defaulting block at the top of `get_measurements`
(`demand_forecast.py` lines 63-65): when `end_date is None`, `end_date`
becomes `datetime.now()` and `start_date` is unconditionally overwritten
with `end_date - timedelta(days=2)`; otherwise both are left unchanged. -/
def resolveDates (start_date end_date : Option Int) (now : Int) :
    Option Int × Option Int :=
  match end_date with
  | none => (some (now - timedelta_days 2), some now)
  | some e => (start_date, some e)

/-- `alitiqDemandAPI.get_measurements` (`demand_forecast.py` lines 46-81), up
to the request handed to `self._request`: resolves the date defaults, formats
both dates with `strftime`, and issues
`GET measurement/inspect` with the four query parameters.  Formatting `None`
(a possible `start_date`) raises before any request. -/
def get_measurements_request (location_id : String)
    (start_date end_date : Option Int) (now : Int) : Except PyError Request := do
  let r := resolveDates start_date end_date now
  let ss ← optStrftime r.1
  let es ← optStrftime r.2
  Except.ok
    { method := "GET"
      path := "measurement/inspect"
      params := [("id_location", ParamValue.str location_id),
                 ("response_format", ParamValue.str "json"),
                 ("start_date", ParamValue.str ss),
                 ("end_date", ParamValue.str es)]
      body := none }

/-- Modelled from the spec: `EngineMeasurementForm`
(`alitiq/models/demand_forecast.py` is not under `src/`).  Per spec section 4.3 a
record is validated against its schema and either yields a list of
field-level violations or serializes to its normalized wire form.  We carry
the normalized serialization (`payload`, the text of the record's dict) and
the list of field violations; `fieldViolations = []` means the record is
valid. -/
structure EngineMeasurementForm where
  payload : String
  fieldViolations : List String
deriving DecidableEq, Repr

/-- Model of `measurement.dict()` as used at `demand_forecast.py` line 104
inside the `try` block: on a valid record it returns the normalized dict, on
an invalid one it raises `ValidationError` carrying the record's field
violations (the validation behaviour itself is modelled from spec
section 4.3). -/
def EngineMeasurementForm.dict (m : EngineMeasurementForm) : Except PyError String :=
  match m.fieldViolations with
  | [] => Except.ok m.payload
  | v => Except.error (PyError.validationError v)

/-- The `isinstance` normalization at `demand_forecast.py` lines 100-101: a
single record is wrapped in a one-element list, a list is kept as is. -/
def normalizeMeasurements :
    Sum EngineMeasurementForm (List EngineMeasurementForm) → List EngineMeasurementForm
  | Sum.inl m => [m]
  | Sum.inr l => l

/-- The list comprehension `[measurement.dict() for measurement in
measurements]` (`demand_forecast.py` line 104): serializes the records left to
right, raising the exception of the first failing record. -/
def serializeAll : List EngineMeasurementForm → Except PyError (List String)
  | [] => Except.ok []
  | m :: rest => do
      let d ← m.dict
      let ds ← serializeAll rest
      Except.ok (d :: ds)

/-- Model of `json.dumps(validated_data)`: renders the ordered list of
normalized record dicts as a JSON array body (brackets and comma separators
around the records' own serializations). -/
def jsonDumps (l : List String) : String :=
  String.singleton (Char.ofNat 91) ++ String.intercalate ", " l ++
    String.singleton (Char.ofNat 93)

/-- `alitiqDemandAPI.post_measurements` (`demand_forecast.py` lines 83-108),
up to the request handed to `self._request`: normalizes the input to a list,
serializes every record (a `ValidationError` raised there is caught and
re-raised as `ValueError` with the message
`f"Validation failed for input data: {e}"`), then issues
`POST measurement/add` with the JSON-encoded list as body.  An error result
occurs before `self._request`, so no request is issued. -/
def post_measurements (measurements : Sum EngineMeasurementForm (List EngineMeasurementForm)) :
    Except PyError Request :=
  match serializeAll (normalizeMeasurements measurements) with
  | Except.ok validated_data =>
      Except.ok
        { method := "POST"
          path := "measurement/add"
          params := []
          body := some (jsonDumps validated_data) }
  | Except.error (PyError.validationError msgs) =>
      Except.error (PyError.valueError
        ("Validation failed for input data: " ++ String.intercalate "; " msgs))
  | Except.error e => Except.error e

/-- A two-record batch in which both records are invalid: used to evaluate
`post_measurements` on a batch with more than one invalid record. -/
def badBatch : List EngineMeasurementForm :=
  [{ payload := "rec-1", fieldViolations := ["value: field required"] },
   { payload := "rec-2", fieldViolations := ["dt: invalid datetime format"] }]

/-- Modelled from the spec: the `ForecastModels` enumeration
(`alitiq/enumerations/forecast_models.py` is not under `src/`).  Per spec
section 3 it is a closed set of identifiers; the only member the client code
names is the default `ICON_EU` (`demand_forecast.py` line 137), so the model
carries that member and its string value. -/
inductive ForecastModels where
  | ICON_EU
deriving DecidableEq, Repr

/-- Modelled from the spec: the string value of each `ForecastModels` member
(the member's wire identifier, unknown beyond being a fixed string per
member). -/
def ForecastModels.value : ForecastModels → String
  | ForecastModels.ICON_EU => "icon_eu"

/-- Modelled from the spec: the enum constructor call
`ForecastModels(forecast_model)` on a string (`demand_forecast.py`
line 139).  Per spec section 4.4 a supplied string must resolve to a valid
member or the call fails with `ValidationError`; there is no fallback. -/
def ForecastModels.ofString (s : String) : Except PyError ForecastModels :=
  if s = ForecastModels.value ForecastModels.ICON_EU then
    Except.ok ForecastModels.ICON_EU
  else
    Except.error (PyError.validationError [s ++ " is not a valid ForecastModels"])

/-- The `forecast_model` defaulting at `demand_forecast.py` lines 136-139:
`None` becomes the fixed default `ForecastModels.ICON_EU`; a string goes
through the enum constructor; an enum member is returned unchanged (the enum
call on a member is the identity). -/
def resolveForecastModel :
    Option (Sum String ForecastModels) → Except PyError ForecastModels
  | none => Except.ok ForecastModels.ICON_EU
  | some (Sum.inl s) => ForecastModels.ofString s
  | some (Sum.inr m) => Except.ok m

/-- Association-list search, the semantics `d.get(k)` of a plain Python
dict keyed by `ForecastModels` (first match; the table of
`demand_forecast.py` has one entry per key). -/
def dictFind : List (ForecastModels × String) → ForecastModels → Option String
  | [], _ => none
  | kv :: rest, k => if kv.1 = k then some kv.2 else dictFind rest k

/-- The subscript `FORECASTING_MODELS_TO_ALITIQ_MODEL_NAMING[forecast_model]`
(`demand_forecast.py` lines 149-151): plain dict indexing, which raises
`KeyError` when the key has no entry.  The table lives in the enumerations
module (not under `src/`); per its constant naming and spec section 9
("a closed lookup table (array or map)") it is modelled as a plain
association table, passed as a parameter so its contents stay general. -/
def dictGetItem (table : List (ForecastModels × String)) (k : ForecastModels) :
    Except PyError String :=
  match dictFind table k with
  | some v => Except.ok v
  | none => Except.error PyError.keyError

/-- `alitiqDemandAPI.get_forecast` (`demand_forecast.py` lines 110-163), up to
the request handed to `self._request`: resolves the forecast model (default
`ICON_EU`), maps it through the naming table by plain dict indexing, and
issues `GET forecast` with the eight query parameters; `dt_calc` is the
formatted timestamp when given and `None` otherwise.  The mapping table is a
parameter (see `dictGetItem`). -/
def get_forecast (table : List (ForecastModels × String)) (location_id : String)
    (forecast_model : Option (Sum String ForecastModels)) (dt_calc : Option Int)
    (power_measure timezone : String) (interval_in_minutes : Int)
    (window_boundary : String) : Except PyError Request := do
  let fm ← resolveForecastModel forecast_model
  let wm ← dictGetItem table fm
  Except.ok
    { method := "GET"
      path := "forecast"
      params := [("id_location", ParamValue.str location_id),
                 ("response_format", ParamValue.str "json"),
                 ("weather_model", ParamValue.str wm),
                 ("power_measure", ParamValue.str power_measure),
                 ("timezone", ParamValue.str timezone),
                 ("interval_in_minutes", ParamValue.int interval_in_minutes),
                 ("window_boundary", ParamValue.str window_boundary),
                 ("dt_calc", match dt_calc with
                   | some t => ParamValue.str (strftime t)
                   | none => ParamValue.noneV)]
      body := none }

/-- Modelled from the spec: the query-string encoding performed by the
authenticated request layer (`alitiq/base.py` is not under `src/`).  Per spec
section 4.1, query parameters whose value is `None` are omitted from the
outgoing request rather than sent as a literal null; the others are sent with
their string rendering. -/
def encodeParams (ps : List (String × ParamValue)) : List (String × String) :=
  ps.filterMap fun kv =>
    match kv.2 with
    | ParamValue.str s => some (kv.1, s)
    | ParamValue.int n => some (kv.1, toString n)
    | ParamValue.noneV => none

/-- The query parameters of the request `get_forecast` issues when
`dt_calc` is omitted, at a sample table and sample arguments. -/
def sampleForecastParams : List (String × ParamValue) :=
  match get_forecast [(ForecastModels.ICON_EU, "icon_eu_forecast")] "loc-1"
      none none "kW" "UTC" 15 "end" with
  | Except.ok req => req.params
  | Except.error _ => []

/-- A JSON value, covering the subset a split-orientation tabular envelope
uses: numbers, strings, arrays and objects. -/
inductive JVal where
  | jnum (n : Int)
  | jstr (s : String)
  | jarr (xs : List JVal)
  | jobj (fields : List (String × JVal))
deriving Repr

/-- Drops leading JSON whitespace. -/
def skipWs : List Char → List Char
  | [] => []
  | c :: cs =>
      if c = ' ' ∨ c = Char.ofNat 10 ∨ c = Char.ofNat 9 ∨ c = Char.ofNat 13 then
        skipWs cs
      else c :: cs

/-- Reads a JSON string body up to the closing quote (escape-free model). -/
def parseStringBody : List Char → Option (String × List Char)
  | [] => none
  | c :: cs =>
      if c = Char.ofNat 34 then some ("", cs)
      else
        match parseStringBody cs with
        | some (s, rest) => some (String.singleton c ++ s, rest)
        | none => none

/-- Accumulates a run of decimal digits. -/
def parseDigitsAux : List Char → Nat → Nat × List Char
  | [], acc => (acc, [])
  | c :: cs, acc =>
      if c.isDigit then parseDigitsAux cs (acc * 10 + (c.toNat - 48))
      else (acc, c :: cs)

/-- Reads a JSON integer, with optional leading minus sign. -/
def parseInt : List Char → Option (Int × List Char)
  | [] => none
  | c :: cs =>
      if c = '-' then
        match cs with
        | d :: _ =>
            if d.isDigit then
              match parseDigitsAux cs 0 with
              | (v, rest) => some (-(Int.ofNat v), rest)
            else none
        | [] => none
      else if c.isDigit then
        match parseDigitsAux (c :: cs) 0 with
        | (v, rest) => some (Int.ofNat v, rest)
      else none

mutual

/-- Reads one JSON value (fuelled recursion; the fuel bounds nesting depth). -/
def parseJVal : Nat → List Char → Option (JVal × List Char)
  | 0, _ => none
  | Nat.succ n, input =>
      match skipWs input with
      | [] => none
      | c :: cs =>
          if c = Char.ofNat 34 then
            match parseStringBody cs with
            | some (s, rest) => some (JVal.jstr s, rest)
            | none => none
          else if c = Char.ofNat 91 then
            match skipWs cs with
            | d :: ds =>
                if d = Char.ofNat 93 then some (JVal.jarr [], ds)
                else
                  match parseArrItems n (d :: ds) with
                  | some (xs, rest) => some (JVal.jarr xs, rest)
                  | none => none
            | [] => none
          else if c = Char.ofNat 123 then
            match skipWs cs with
            | d :: ds =>
                if d = Char.ofNat 125 then some (JVal.jobj [], ds)
                else
                  match parseObjItems n (d :: ds) with
                  | some (fs, rest) => some (JVal.jobj fs, rest)
                  | none => none
            | [] => none
          else if c = '-' ∨ c.isDigit then
            match parseInt (c :: cs) with
            | some (v, rest) => some (JVal.jnum v, rest)
            | none => none
          else none

/-- Reads the comma-separated items of a non-empty JSON array, consuming the
closing bracket. -/
def parseArrItems : Nat → List Char → Option (List JVal × List Char)
  | 0, _ => none
  | Nat.succ n, input =>
      match parseJVal n input with
      | none => none
      | some (v, rest) =>
          match skipWs rest with
          | [] => none
          | c :: cs =>
              if c = ',' then
                match parseArrItems n cs with
                | some (xs, rest2) => some (v :: xs, rest2)
                | none => none
              else if c = Char.ofNat 93 then some ([v], cs)
              else none

/-- Reads the comma-separated fields of a non-empty JSON object, consuming
the closing brace. -/
def parseObjItems : Nat → List Char → Option (List (String × JVal) × List Char)
  | 0, _ => none
  | Nat.succ n, input =>
      match skipWs input with
      | [] => none
      | c :: cs =>
          if c = Char.ofNat 34 then
            match parseStringBody cs with
            | none => none
            | some (k, rest) =>
                match skipWs rest with
                | [] => none
                | d :: ds =>
                    if d = ':' then
                      match parseJVal n ds with
                      | none => none
                      | some (v, rest2) =>
                          match skipWs rest2 with
                          | [] => none
                          | e :: es =>
                              if e = ',' then
                                match parseObjItems n es with
                                | some (fs, rest3) => some ((k, v) :: fs, rest3)
                                | none => none
                              else if e = Char.ofNat 125 then some ([(k, v)], es)
                              else none
                    else none
          else none

end

/-- The tabular response: ordered row index, ordered column labels, row-major
data (spec section 3, "Tabular Response"). -/
structure Table where
  index : List JVal
  columns : List JVal
  data : List (List JVal)
deriving Repr

/-- First field of a JSON object with the given key. -/
def objFind : List (String × JVal) → String → Option JVal
  | [], _ => none
  | f :: rest, k => if f.1 = k then some f.2 else objFind rest k

/-- Each element of the `data` array must itself be an array (one row). -/
def rowsOf : List JVal → Option (List (List JVal))
  | [] => some []
  | JVal.jarr r :: rest =>
      match rowsOf rest with
      | some rs => some (r :: rs)
      | none => none
  | _ :: _ => none

/-- Turns a parsed split-orientation envelope — an object with `index`,
`columns` and `data` array fields — into a `Table`; anything else is a parse
failure. -/
def decodeSplit : JVal → Except PyError Table
  | JVal.jobj fields =>
      match objFind fields "index", objFind fields "columns", objFind fields "data" with
      | some (JVal.jarr idx), some (JVal.jarr cols), some (JVal.jarr rows) =>
          match rowsOf rows with
          | some rs => Except.ok { index := idx, columns := cols, data := rs }
          | none => Except.error PyError.parseError
      | _, _, _ => Except.error PyError.parseError
  | _ => Except.error PyError.parseError

/-- Modelled from the spec: `pd.read_json(StringIO(body), orient="split")`
(the pandas decoder is an external library, not repository code).  Per spec
sections 4.4 and the glossary, the body is parsed as JSON and read as a
split-orientation envelope with `index`, `columns` and `data` arrays; a body
that is not such an envelope fails with `ParseError`. -/
def pd_read_json_split (body : String) : Except PyError Table :=
  match parseJVal (body.length + 1) body.toList with
  | some (v, rest) =>
      match skipWs rest with
      | [] => decodeSplit v
      | _ :: _ => Except.error PyError.parseError
  | none => Except.error PyError.parseError

/-- The response-parsing step of `get_measurements` (`demand_forecast.py`
lines 67-81): `pd.read_json(StringIO(response_body), orient="split")`. -/
def get_measurements_parse (body : String) : Except PyError Table :=
  pd_read_json_split body

/-- The response-parsing step of `get_forecast` (`demand_forecast.py`
lines 141-163): `pd.read_json(StringIO(response_body), orient="split")`. -/
def get_forecast_parse (body : String) : Except PyError Table :=
  pd_read_json_split body

/-- CLAIM C2.  With no date arguments, `get_measurements` uses
`end = now` and `start = now - 2 days`: the defaulting block produces exactly
these datetimes, and the issued request carries their formatted values; and
whenever `end_date` is omitted it defaults to `now` even if `start_date` was
supplied. -/
theorem getMeasurements_date_defaults (lid : String) (now s : Int) :
    resolveDates none none now = (some (now - timedelta_days 2), some now) ∧
    (resolveDates (some s) none now).2 = some now ∧
    get_measurements_request lid none none now = Except.ok
      { method := "GET"
        path := "measurement/inspect"
        params := [("id_location", ParamValue.str lid),
                   ("response_format", ParamValue.str "json"),
                   ("start_date", ParamValue.str (strftime (now - timedelta_days 2))),
                   ("end_date", ParamValue.str (strftime now))]
        body := none } :=
  ⟨rfl, rfl, rfl⟩

/-- CLAIM C9.  When `end_date` is supplied but `start_date` is omitted, the
defaulting block is skipped, `start_date` stays `None`, and
`start_date.strftime(...)` raises `AttributeError` — an error result, so no
request is issued. -/
theorem getMeasurements_endOnly_fails (lid : String) (e now : Int) :
    get_measurements_request lid none (some e) now =
      Except.error (PyError.attributeError "NoneType object has no attribute strftime") :=
  rfl

/-- CLAIM C10.  When `end_date` is omitted but `start_date` is supplied, the
supplied `start_date` is ignored: the defaulting block unconditionally
replaces it with `now - 2 days`, and the issued request is identical to the
one issued with no date arguments at all. -/
theorem getMeasurements_start_ignored (lid : String) (s now : Int) :
    resolveDates (some s) none now = (some (now - timedelta_days 2), some now) ∧
    get_measurements_request lid (some s) none now =
      get_measurements_request lid none none now :=
  ⟨rfl, rfl⟩

/-- When every record of a list is valid, the serialization comprehension
returns all their normalized dicts, in input order. -/
theorem serializeAll_ok_of_valid (l : List EngineMeasurementForm)
    (h : ∀ m ∈ l, m.fieldViolations = []) :
    serializeAll l = Except.ok (l.map EngineMeasurementForm.payload) := by
  induction l with
  | nil => rfl
  | cons m rest ih =>
      have hm : m.fieldViolations = [] := h m (List.mem_cons_self m rest)
      have hr := ih fun x hx => h x (List.mem_cons_of_mem m hx)
      simp [serializeAll, EngineMeasurementForm.dict, hm, hr, Bind.bind, Except.bind]

/-- CLAIM C6.  For valid input, `post_measurements` normalizes a single
record to a one-element sequence, and the serialized body is the JSON
encoding of the normalization of every input record in input order. -/
theorem postMeasurements_normalizes_in_order (r : EngineMeasurementForm)
    (ms : Sum EngineMeasurementForm (List EngineMeasurementForm))
    (h : ∀ m ∈ normalizeMeasurements ms, m.fieldViolations = []) :
    normalizeMeasurements (Sum.inl r) = [r] ∧
    post_measurements ms = Except.ok
      { method := "POST"
        path := "measurement/add"
        params := []
        body := some (jsonDumps
          ((normalizeMeasurements ms).map EngineMeasurementForm.payload)) } := by
  refine ⟨rfl, ?_⟩
  unfold post_measurements
  rw [serializeAll_ok_of_valid _ h]

/-- Witness for C6 at a concrete two-record batch of valid records. -/
theorem postMeasurements_normalizes_in_order_witness :
    (∀ m ∈ normalizeMeasurements (Sum.inr
        [EngineMeasurementForm.mk "rec-a" [], EngineMeasurementForm.mk "rec-b" []]),
      m.fieldViolations = []) ∧
    normalizeMeasurements (Sum.inl (EngineMeasurementForm.mk "rec-a" [])) =
      [EngineMeasurementForm.mk "rec-a" []] ∧
    post_measurements (Sum.inr
        [EngineMeasurementForm.mk "rec-a" [], EngineMeasurementForm.mk "rec-b" []]) =
      Except.ok
        { method := "POST"
          path := "measurement/add"
          params := []
          body := some (jsonDumps
            ((normalizeMeasurements (Sum.inr
              [EngineMeasurementForm.mk "rec-a" [], EngineMeasurementForm.mk "rec-b" []])).map
                EngineMeasurementForm.payload)) } :=
  ⟨by decide,
   postMeasurements_normalizes_in_order (EngineMeasurementForm.mk "rec-a" [])
     (Sum.inr [EngineMeasurementForm.mk "rec-a" [], EngineMeasurementForm.mk "rec-b" []])
     (by decide)⟩

/-- CLAIM C1 (code bug evaluation).  On a batch whose two records are both
invalid, `post_measurements` raises `ValueError` — not the `ValidationError`
the claim and the function's own docstring promise — and its message carries
only the first invalid record's violations (the second record's
`dt: invalid datetime format` is absent); the error result means no request
is issued. -/
theorem postMeasurements_invalid_raises_valueError :
    post_measurements (Sum.inr badBatch) =
      Except.error (PyError.valueError
        "Validation failed for input data: value: field required") :=
  rfl

/-- CLAIM C3.  A string that is not the value of any `ForecastModels` member
makes `get_forecast` fail with `ValidationError` before any request — no
silent fallback to a default model. -/
theorem getForecast_unknownString_validationError
    (table : List (ForecastModels × String)) (lid s : String) (dt : Option Int)
    (pm tz : String) (iv : Int) (wb : String)
    (h : s ≠ ForecastModels.value ForecastModels.ICON_EU) :
    get_forecast table lid (some (Sum.inl s)) dt pm tz iv wb =
      Except.error (PyError.validationError [s ++ " is not a valid ForecastModels"]) := by
  unfold get_forecast resolveForecastModel ForecastModels.ofString
  simp [h, Bind.bind, Except.bind]

/-- Witness for C3 at the spec's own sample string. -/
theorem getForecast_unknownString_validationError_witness :
    "string-that-is-not-a-model" ≠ ForecastModels.value ForecastModels.ICON_EU ∧
    get_forecast [] "loc-1" (some (Sum.inl "string-that-is-not-a-model")) none
        "kW" "UTC" 15 "end" =
      Except.error (PyError.validationError
        ["string-that-is-not-a-model" ++ " is not a valid ForecastModels"]) :=
  ⟨by decide,
   getForecast_unknownString_validationError [] "loc-1" "string-that-is-not-a-model"
     none "kW" "UTC" 15 "end" (by decide)⟩

/-- CLAIM C4 counterexample.  With a table that has no entry for the resolved
model, `get_forecast` fails with `KeyError`, and it does not fail with the
`ConfigurationError` the claim requires. -/
theorem getForecast_missingMapping_counterexample :
    get_forecast [] "loc-3" none none "kW" "UTC" 15 "end" =
      Except.error PyError.keyError ∧
    ¬ get_forecast [] "loc-3" none none "kW" "UTC" 15 "end" =
        Except.error PyError.configurationError := by
  refine ⟨rfl, fun hcontra => ?_⟩
  have h2 : (Except.error PyError.keyError : Except PyError Request) =
      Except.error PyError.configurationError := hcontra
  injection h2 with h3
  cases h3

/-- CLAIM C4 as amended.  When the mapping table has no entry for the
resolved model, the bare dict subscript in `get_forecast` raises `KeyError`;
there is no explicit check and `ConfigurationError` is never raised. -/
theorem getForecast_missingMapping_keyError
    (table : List (ForecastModels × String)) (lid : String) (dt : Option Int)
    (pm tz : String) (iv : Int) (wb : String)
    (h : dictFind table ForecastModels.ICON_EU = none) :
    get_forecast table lid none dt pm tz iv wb = Except.error PyError.keyError := by
  unfold get_forecast resolveForecastModel dictGetItem
  simp [h, Bind.bind, Except.bind]

/-- Witness for the amended C4 at the empty table. -/
theorem getForecast_missingMapping_keyError_witness :
    dictFind [] ForecastModels.ICON_EU = none ∧
    get_forecast [] "loc-2" none none "kW" "UTC" 15 "end" =
      Except.error PyError.keyError :=
  ⟨rfl, getForecast_missingMapping_keyError [] "loc-2" none "kW" "UTC" 15 "end" rfl⟩

/-- CLAIM C5.  With `forecast_model` omitted, `get_forecast` resolves the
fixed default `ForecastModels.ICON_EU` and sends, as the `weather_model`
query parameter, exactly the provider name the mapping table assigns to that
default. -/
theorem getForecast_default_model (table : List (ForecastModels × String))
    (w lid : String) (dt : Option Int) (pm tz : String) (iv : Int) (wb : String)
    (h : dictFind table ForecastModels.ICON_EU = some w) :
    resolveForecastModel none = Except.ok ForecastModels.ICON_EU ∧
    get_forecast table lid none dt pm tz iv wb = Except.ok
      { method := "GET"
        path := "forecast"
        params := [("id_location", ParamValue.str lid),
                   ("response_format", ParamValue.str "json"),
                   ("weather_model", ParamValue.str w),
                   ("power_measure", ParamValue.str pm),
                   ("timezone", ParamValue.str tz),
                   ("interval_in_minutes", ParamValue.int iv),
                   ("window_boundary", ParamValue.str wb),
                   ("dt_calc", match dt with
                     | some t => ParamValue.str (strftime t)
                     | none => ParamValue.noneV)]
        body := none } := by
  refine ⟨rfl, ?_⟩
  unfold get_forecast resolveForecastModel dictGetItem
  simp [h, Bind.bind, Except.bind]

/-- Witness for C5 at a one-entry table. -/
theorem getForecast_default_model_witness :
    dictFind [(ForecastModels.ICON_EU, "icon_eu_forecast")] ForecastModels.ICON_EU =
      some "icon_eu_forecast" ∧
    (resolveForecastModel none = Except.ok ForecastModels.ICON_EU ∧
     get_forecast [(ForecastModels.ICON_EU, "icon_eu_forecast")] "loc-4" none none
         "kW" "UTC" 15 "end" = Except.ok
       { method := "GET"
         path := "forecast"
         params := [("id_location", ParamValue.str "loc-4"),
                    ("response_format", ParamValue.str "json"),
                    ("weather_model", ParamValue.str "icon_eu_forecast"),
                    ("power_measure", ParamValue.str "kW"),
                    ("timezone", ParamValue.str "UTC"),
                    ("interval_in_minutes", ParamValue.int 15),
                    ("window_boundary", ParamValue.str "end"),
                    ("dt_calc", ParamValue.noneV)]
         body := none }) :=
  ⟨rfl,
   getForecast_default_model [(ForecastModels.ICON_EU, "icon_eu_forecast")]
     "icon_eu_forecast" "loc-4" none "kW" "UTC" 15 "end" rfl⟩

/-- CLAIM C7.  A query-parameter key that only carries the value `None` is
omitted entirely by the request layer's encoding: it does not occur among the
keys of the outgoing request. -/
theorem encodeParams_omits_none (ps : List (String × ParamValue)) (k : String)
    (h : ∀ kv ∈ ps, kv.1 = k → kv.2 = ParamValue.noneV) :
    k ∉ (encodeParams ps).map Prod.fst := by
  intro hk
  rcases List.mem_map.1 hk with ⟨kv', hmem, hfst⟩
  rcases List.mem_filterMap.1 hmem with ⟨kv, hkv, hf⟩
  cases hv : kv.2 with
  | str s =>
      rw [hv] at hf
      cases hf
      exact ParamValue.noConfusion (h kv hkv hfst ▸ hv)
  | int n =>
      rw [hv] at hf
      cases hf
      exact ParamValue.noConfusion (h kv hkv hfst ▸ hv)
  | noneV =>
      rw [hv] at hf
      cases hf

/-- Witness for C7 on the parameters `get_forecast` builds when `dt_calc` is
omitted: the `dt_calc` key is absent from the encoded outgoing request. -/
theorem encodeParams_omits_none_witness :
    (∀ kv ∈ sampleForecastParams, kv.1 = "dt_calc" → kv.2 = ParamValue.noneV) ∧
    "dt_calc" ∉ (encodeParams sampleForecastParams).map Prod.fst :=
  ⟨by decide, encodeParams_omits_none sampleForecastParams "dt_calc" (by decide)⟩

/-- CLAIM C8.  The response-parsing step of `get_forecast` is the very same
split-orientation JSON-to-table decoding as the one of `get_measurements`:
on every body text both are `pd_read_json_split` and produce equal tables. -/
theorem parse_steps_shared_split (body : String) :
    get_measurements_parse body = pd_read_json_split body ∧
    get_forecast_parse body = pd_read_json_split body ∧
    get_measurements_parse body = get_forecast_parse body :=
  ⟨rfl, rfl, rfl⟩
